import Mathlib

/-!
Shallow embedding of the VevorFridgeMonitor firmware core (`src/main.cpp`):
the additive checksum, the single-zone query-response decoder, the two
outbound command builders, the notification slot, and the connect/poll
session logic.  Byte buffers are modelled as `List Nat` whose elements are
understood to be `uint8_t` values (< 256); machine-integer truncations of
the C code (`uint32_t`, `uint16_t`, `int8_t`, `unsigned long`) appear as
explicit `% 2^w` operations.
-/

set_option autoImplicit false

namespace VevorFridge

/-- A list of byte values, as delivered by the BLE stack (`uint8_t*`). -/
def IsBytes (l : List Nat) : Prop := ∀ x ∈ l, x < 256

instance (l : List Nat) : Decidable (IsBytes l) := by
  unfold IsBytes; infer_instance

/-- `struct FridgeStatus_t` from the source.  `int8_t` fields are modelled
as `Int`, `uint8_t` fields as `Nat`, `bool` fields as `Bool`. -/
structure FridgeStatus_t where
  locked : Bool
  poweredOn : Bool
  runMode : Nat
  batSaver : Nat
  leftTarget : Int
  tempMax : Int
  tempMin : Int
  leftRetDiff : Nat
  startDelay : Nat
  unit : Nat
  leftTCHot : Int
  leftTCMid : Int
  leftTCCold : Int
  leftTCHalt : Int
  leftCurrent : Int
  batPercent : Nat
  batVolInt : Nat
  batVolDec : Nat
deriving DecidableEq

/-- `(int8_t)b`: reinterpret the low 8 bits of a byte as a two's-complement
signed value. -/
def toInt8 (b : Nat) : Int :=
  if b % 256 < 128 then (b % 256 : Nat) else (b % 256 : Nat) - 256

/-- `calculateChecksum(buf, len)`: sums the bytes in a `uint32_t`
accumulator (hence the `% 2^32` at each step) and truncates the result to
its low 16 bits (`(uint16_t)(sum & 0xFFFF)`). -/
def calculateChecksum (buf : List Nat) : Nat :=
  (buf.foldl (fun sum b => (sum + b) % 4294967296) 0) % 65536

/-- The failure cases of `decodeFridgeQuerySingleZone`, in the order the
source checks them (the C function returns a bare `false`; the labels
record which check rejected the input). -/
inductive DecodeError where
  | TooShort
  | BadSync
  | UnsupportedCommand
  | ChecksumMismatch
deriving DecidableEq

/-- `decodeFridgeQuerySingleZone(data, length, status)`, validation and
field extraction.  `offsetSum` is a `uint16_t` in the source, so the
subtraction `length - 2` is truncated `% 65536`; `sumPacket` is
`(uint16_t)((data[offsetSum] << 8) | data[offsetSum+1])`, which for byte
values equals `(hi * 256 + lo) % 65536`; `payload[k]` is `data[4 + k]`. -/
def decodeE (data : List Nat) : Except DecodeError FridgeStatus_t :=
  if data.length < 24 then Except.error DecodeError.TooShort
  else if ¬(data.getD 0 0 = 0xFE) ∨ ¬(data.getD 1 0 = 0xFE) then
    Except.error DecodeError.BadSync
  else if ¬(data.getD 3 0 = 0x01) then Except.error DecodeError.UnsupportedCommand
  else
    let offsetSum : Nat := (data.length - 2) % 65536
    let sumPacket : Nat := (data.getD offsetSum 0 * 256 + data.getD (offsetSum + 1) 0) % 65536
    let sumCalc : Nat := calculateChecksum (data.take offsetSum)
    if ¬(sumCalc = sumPacket) then Except.error DecodeError.ChecksumMismatch
    else Except.ok
      { locked := data.getD 4 0 == 1
        poweredOn := data.getD 5 0 == 1
        runMode := data.getD 6 0
        batSaver := data.getD 7 0
        leftTarget := toInt8 (data.getD 8 0)
        tempMax := toInt8 (data.getD 9 0)
        tempMin := toInt8 (data.getD 10 0)
        leftRetDiff := data.getD 11 0
        startDelay := data.getD 12 0
        unit := data.getD 13 0
        leftTCHot := toInt8 (data.getD 14 0)
        leftTCMid := toInt8 (data.getD 15 0)
        leftTCCold := toInt8 (data.getD 16 0)
        leftTCHalt := toInt8 (data.getD 17 0)
        leftCurrent := toInt8 (data.getD 18 0)
        batPercent := data.getD 19 0
        batVolInt := data.getD 20 0
        batVolDec := data.getD 21 0 }

/-- The C signature `bool decodeFridgeQuerySingleZone(data, length,
FridgeStatus_t &status)`: the out-parameter is written only after every
validation check has passed, so on failure the caller's record is returned
untouched. -/
def decodeFridgeQuerySingleZone (data : List Nat) (status : FridgeStatus_t) :
    Bool × FridgeStatus_t :=
  match decodeE data with
  | Except.error _ => (false, status)
  | Except.ok st => (true, st)

/-- `buildQueryCommand(packet)`: `packet.clear()` followed by six
`push_back` calls, so the prior contents of the buffer are discarded. -/
def buildQueryCommand (packet : List Nat) : List Nat :=
  (((((([] : List Nat).concat 0xFE).concat 0xFE).concat 0x03).concat
    0x01).concat 0x02).concat 0x00

/-- `buildBindCommand(packet)`: `packet.clear()` followed by seven
`push_back` calls. -/
def buildBindCommand (packet : List Nat) : List Nat :=
  ((((((([] : List Nat).concat 0xFE).concat 0xFE).concat 0x03).concat
    0x01).concat 0x02).concat 0x00).concat 0xFF

/-! ### Notification slot

The globals `g_lastNotificationData` / `g_newDataAvailable` form a
single-slot mailbox: `notifyCallback` overwrites it, and step 4 of
`loop()` consumes it by clearing the flag. -/

structure NotifState where
  g_lastNotificationData : List Nat
  g_newDataAvailable : Bool
deriving DecidableEq

/-- `notifyCallback`: clears the buffer, copies the incoming bytes, and
raises the new-data flag — regardless of any session phase. -/
def notifyCallback (pData : List Nat) (st : NotifState) : NotifState :=
  { g_lastNotificationData := pData, g_newDataAvailable := true }

/-- Step 4 of `loop()` as a take-and-clear: if the flag is up, hand the
buffered bytes to the decoder and lower the flag; otherwise nothing. -/
def drainPending (st : NotifState) : Option (List Nat) × NotifState :=
  if st.g_newDataAvailable then
    (some st.g_lastNotificationData, { st with g_newDataAvailable := false })
  else (none, st)

/-! ### Session state and the connect / poll logic -/

/-- `unsigned long` on the ESP32 target is 32 bits wide. -/
def U32 : Nat := 4294967296

/-- `QUERY_INTERVAL_MS` from the source. -/
def QUERY_INTERVAL_MS : Nat := 60000

/-- Wrap-around subtraction of two `unsigned long` values. -/
def ulSub (a b : Nat) : Nat := (a % U32 + (U32 - b % U32)) % U32

/-- The session globals: `connected`, the two cached characteristic
pointers (modelled as null/non-null flags), and `lastQueryMillis`. -/
structure Session where
  connected : Bool
  writeHandle : Bool
  notifyHandle : Bool
  lastQueryMillis : Nat
deriving DecidableEq

/-- `connectToServer`, with the transport outcomes (connect, service
lookup, write/notify characteristic lookup) as inputs and the wall clock
`t = millis()`.  Returns the C function's `bool` result, the updated
globals, and the frames written to the write characteristic.  On full
success it sets `connected = true`, sends exactly one Bind frame, and sets
`lastQueryMillis = millis() - QUERY_INTERVAL_MS` (unsigned wrap). -/
def connectToServer (connectOk serviceOk writeOk notifyOk : Bool) (t : Nat)
    (s : Session) : Bool × Session × List (List Nat) :=
  if connectOk = false then (false, s, [])
  else if serviceOk = false then (false, s, [])
  else
    let s1 := { s with writeHandle := writeOk }
    if writeOk = false then (false, s1, [])
    else
      let s2 := { s1 with notifyHandle := notifyOk }
      if notifyOk = false then (false, s2, [])
      else
        (true,
         { s2 with connected := true, lastQueryMillis := ulSub t QUERY_INTERVAL_MS },
         [buildBindCommand []])

/-- Step 3 of `loop()`: when connected and the write characteristic is
non-null, compare `now - lastQueryMillis` (unsigned wrap) against
`QUERY_INTERVAL_MS`; when due, record `lastQueryMillis = now` and send one
Query frame. -/
def loopQueryStep (now : Nat) (s : Session) : Session × List (List Nat) :=
  if s.connected && s.writeHandle then
    if QUERY_INTERVAL_MS ≤ ulSub now s.lastQueryMillis then
      ({ s with lastQueryMillis := now % U32 }, [buildQueryCommand []])
    else (s, [])
  else (s, [])

/-- `MyClientCallback::onDisconnect`: the source sets `connected = false`
and nothing else — in particular the cached characteristic pointers are
not reset. -/
def onDisconnect (s : Session) : Session := { s with connected := false }

/-! ### Helper lemmas -/

theorem foldl_mod_add (l : List Nat) (acc : Nat) :
    l.foldl (fun sum b => (sum + b) % 4294967296) (acc % 4294967296) =
      (acc + l.sum) % 4294967296 := by
  induction l generalizing acc with
  | nil => simp
  | cons x xs ih =>
    simp only [List.foldl_cons, List.sum_cons]
    rw [Nat.mod_add_mod, ih (acc + x), Nat.add_assoc]

theorem checksum_eq_sum (l : List Nat) : calculateChecksum l = l.sum % 65536 := by
  unfold calculateChecksum
  rw [show (0 : Nat) = 0 % 4294967296 by norm_num, foldl_mod_add]
  simp [Nat.mod_mod_of_dvd _ (by norm_num : (65536 : Nat) ∣ 4294967296)]

theorem isBytes_getD {l : List Nat} (h : IsBytes l) (i : Nat) : l.getD i 0 < 256 := by
  by_cases hi : i < l.length
  · rw [List.getD_eq_getElem _ _ hi]
    exact h _ (l.getElem_mem hi)
  · rw [List.getD_eq_default _ _ (Nat.le_of_not_lt hi)]
    norm_num

theorem exists_cons_of_length_succ {α : Type} {l : List α} {n : Nat}
    (h : l.length = n + 1) : ∃ a t, l = a :: t ∧ t.length = n := by
  cases l with
  | nil => simp at h
  | cons a t => exact ⟨a, t, rfl, by simpa using h⟩

/-- Header of a synthetic valid single-zone frame: sync `FE FE`, declared
length `0x14`, command `0x01`. -/
def frameHeader : List Nat := [0xFE, 0xFE, 0x14, 0x01]

/-- A synthetic frame for payload `p`: header, the payload, then the
big-endian 16-bit checksum of the first 22 bytes. -/
def mkFrame (p : List Nat) : List Nat :=
  frameHeader ++ p ++
    [calculateChecksum (frameHeader ++ p) / 256,
     calculateChecksum (frameHeader ++ p) % 256]

/-- The documented payload-to-field mapping of the spec's table: offsets
0..17, with `locked`/`poweredOn` as equality with 1, offsets 4..6 and
10..14 reinterpreted as two's-complement signed bytes, the rest unsigned. -/
def reportOf (p : List Nat) : FridgeStatus_t :=
  { locked := p.getD 0 0 == 1
    poweredOn := p.getD 1 0 == 1
    runMode := p.getD 2 0
    batSaver := p.getD 3 0
    leftTarget := toInt8 (p.getD 4 0)
    tempMax := toInt8 (p.getD 5 0)
    tempMin := toInt8 (p.getD 6 0)
    leftRetDiff := p.getD 7 0
    startDelay := p.getD 8 0
    unit := p.getD 9 0
    leftTCHot := toInt8 (p.getD 10 0)
    leftTCMid := toInt8 (p.getD 11 0)
    leftTCCold := toInt8 (p.getD 12 0)
    leftTCHalt := toInt8 (p.getD 13 0)
    leftCurrent := toInt8 (p.getD 14 0)
    batPercent := p.getD 15 0
    batVolInt := p.getD 16 0
    batVolDec := p.getD 17 0 }

theorem split_checksum_mod (c : Nat) (h : c < 65536) :
    (c / 256 * 256 + c % 256) % 65536 = c := by
  have h2 := Nat.div_add_mod c 256
  omega

theorem checksum_lt (l : List Nat) : calculateChecksum l < 65536 :=
  Nat.mod_lt _ (by norm_num)

/-! ### Claim theorems -/

/-- Claim C6: for every byte sequence `b`, `calculateChecksum b` equals the
arithmetic sum of all byte values of `b` modulo `2^16` (the low 16 bits of
an unsigned 32-bit accumulation); it is a total pure function and the
checksum of the empty sequence is `0`. -/
theorem checksum_is_sum_mod :
    (∀ b : List Nat, calculateChecksum b = b.sum % 2 ^ 16) ∧
      calculateChecksum [] = 0 := by
  refine ⟨fun b => ?_, rfl⟩
  rw [checksum_eq_sum]
  norm_num

/-- Claim C10: the checksum is additive across concatenation modulo `2^16`
and therefore invariant under any permutation of its input bytes (it
detects changed byte values but not reordering). -/
theorem checksum_append_perm :
    (∀ a b : List Nat,
        calculateChecksum (a ++ b) =
          (calculateChecksum a + calculateChecksum b) % 2 ^ 16) ∧
      (∀ a b : List Nat, a.Perm b → calculateChecksum a = calculateChecksum b) := by
  constructor
  · intro a b
    rw [checksum_eq_sum, checksum_eq_sum, checksum_eq_sum, List.sum_append]
    norm_num [Nat.add_mod]
  · intro a b hab
    rw [checksum_eq_sum, checksum_eq_sum, hab.sum_eq]

/-- Witness for C10 at concrete inputs, the permutation hypothesis
discharged by `decide`. -/
theorem checksum_append_perm_witness :
    calculateChecksum ([1, 2] ++ [3]) =
        (calculateChecksum [1, 2] + calculateChecksum [3]) % 2 ^ 16 ∧
      calculateChecksum [1, 2, 3] = calculateChecksum [3, 1, 2] :=
  ⟨checksum_append_perm.1 [1, 2] [3],
   checksum_append_perm.2 [1, 2, 3] [3, 1, 2] (by decide)⟩

/-- Claim C5: `buildBindCommand` produces exactly
`FE FE 03 01 02 00 FF` and `buildQueryCommand` exactly `FE FE 03 01 02 00`,
with no checksum appended, for every prior content of the caller's output
buffer (the builders fully replace the buffer). -/
theorem build_commands_spec (prev q : List Nat) :
    buildBindCommand prev = [0xFE, 0xFE, 0x03, 0x01, 0x02, 0x00, 0xFF] ∧
      buildQueryCommand q = [0xFE, 0xFE, 0x03, 0x01, 0x02, 0x00] :=
  ⟨rfl, rfl⟩

/-- Claim C4: two `notifyCallback` arrivals before any drain leave only the
second payload in the single slot; the next `drainPending` returns exactly
it and a further `drainPending` returns nothing.  The slot state `st` is
arbitrary, so this holds in every session phase, including for unsolicited
notifications. -/
theorem notification_single_slot (a b : List Nat) (st : NotifState) :
    (drainPending (notifyCallback b (notifyCallback a st))).1 = some b ∧
      (drainPending (drainPending (notifyCallback b (notifyCallback a st))).2).1 =
        none := by
  simp [notifyCallback, drainPending]

/-- Counterexample for C8 as stated: after `onDisconnect` on a fully bound
session, the cached write/notify handles are not cleared (they keep their
non-null value), so "transitions to Disconnected and clears its cached
write and notify endpoint handles" is false. -/
theorem onDisconnect_cex :
    ¬((onDisconnect ⟨true, true, true, 0⟩).connected = false ∧
      (onDisconnect ⟨true, true, true, 0⟩).writeHandle = false ∧
      (onDisconnect ⟨true, true, true, 0⟩).notifyHandle = false) := by
  decide

/-- Claim C8 (amended): on a transport disconnect event in any phase the
session transitions to Disconnected (`connected = false`), while the
cached write and notify endpoint handles are left unchanged — the source's
`onDisconnect` never resets them. -/
theorem onDisconnect_spec (s : Session) :
    (onDisconnect s).connected = false ∧
      (onDisconnect s).writeHandle = s.writeHandle ∧
      (onDisconnect s).notifyHandle = s.notifyHandle ∧
      (onDisconnect s).lastQueryMillis = s.lastQueryMillis :=
  ⟨rfl, rfl, rfl, rfl⟩

/-- Claim C7: decoding is deterministic and side-effect-free — the result
flag does not depend on the caller's record, on failure the caller's
record is returned completely unchanged, and on success the produced
report does not depend on the caller's record. -/
theorem decode_pure_spec (data : List Nat) (s s' : FridgeStatus_t) :
    ((decodeFridgeQuerySingleZone data s).1 = false →
        (decodeFridgeQuerySingleZone data s).2 = s) ∧
      (decodeFridgeQuerySingleZone data s).1 = (decodeFridgeQuerySingleZone data s').1 ∧
      ((decodeFridgeQuerySingleZone data s).1 = true →
        (decodeFridgeQuerySingleZone data s).2 = (decodeFridgeQuerySingleZone data s').2) := by
  unfold decodeFridgeQuerySingleZone
  cases decodeE data <;> simp

/-- Two distinct concrete status records used by the C7 witness. -/
def stA : FridgeStatus_t :=
  ⟨false, false, 0, 0, 0, 0, 0, 0, 0, 0, 0, 0, 0, 0, 0, 0, 0, 0⟩

def stB : FridgeStatus_t :=
  ⟨true, true, 1, 2, 3, 4, 5, 6, 7, 8, 9, 10, 11, 12, 13, 14, 15, 16⟩

/-- Witness for C7 at the empty input and two distinct caller records. -/
theorem decode_pure_spec_witness :
    ((decodeFridgeQuerySingleZone [] stA).1 = false →
        (decodeFridgeQuerySingleZone [] stA).2 = stA) ∧
      (decodeFridgeQuerySingleZone [] stA).1 = (decodeFridgeQuerySingleZone [] stB).1 ∧
      ((decodeFridgeQuerySingleZone [] stA).1 = true →
        (decodeFridgeQuerySingleZone [] stA).2 = (decodeFridgeQuerySingleZone [] stB).2) :=
  decode_pure_spec [] stA stB

/-- Claim C1: for every 18-byte payload `p`, decoding the 24-byte frame
`FE FE 14 01 ++ p ++` big-endian checksum of the first 22 bytes succeeds
and yields the `FridgeStatus_t` whose every field equals the corresponding
byte of `p` under the documented mapping (`locked`/`poweredOn` as
equality with 1, offsets 4..6 and 10..14 as signed bytes, the rest
unsigned). -/
theorem decode_roundtrip (p : List Nat) (hp : p.length = 18)
    (hbytes : IsBytes p) : decodeE (mkFrame p) = Except.ok (reportOf p) := by
  clear hbytes
  obtain ⟨a0, p0, rfl, hp0⟩ := exists_cons_of_length_succ hp
  obtain ⟨a1, p1, rfl, hp1⟩ := exists_cons_of_length_succ hp0
  obtain ⟨a2, p2, rfl, hp2⟩ := exists_cons_of_length_succ hp1
  obtain ⟨a3, p3, rfl, hp3⟩ := exists_cons_of_length_succ hp2
  obtain ⟨a4, p4, rfl, hp4⟩ := exists_cons_of_length_succ hp3
  obtain ⟨a5, p5, rfl, hp5⟩ := exists_cons_of_length_succ hp4
  obtain ⟨a6, p6, rfl, hp6⟩ := exists_cons_of_length_succ hp5
  obtain ⟨a7, p7, rfl, hp7⟩ := exists_cons_of_length_succ hp6
  obtain ⟨a8, p8, rfl, hp8⟩ := exists_cons_of_length_succ hp7
  obtain ⟨a9, p9, rfl, hp9⟩ := exists_cons_of_length_succ hp8
  obtain ⟨a10, p10, rfl, hp10⟩ := exists_cons_of_length_succ hp9
  obtain ⟨a11, p11, rfl, hp11⟩ := exists_cons_of_length_succ hp10
  obtain ⟨a12, p12, rfl, hp12⟩ := exists_cons_of_length_succ hp11
  obtain ⟨a13, p13, rfl, hp13⟩ := exists_cons_of_length_succ hp12
  obtain ⟨a14, p14, rfl, hp14⟩ := exists_cons_of_length_succ hp13
  obtain ⟨a15, p15, rfl, hp15⟩ := exists_cons_of_length_succ hp14
  obtain ⟨a16, p16, rfl, hp16⟩ := exists_cons_of_length_succ hp15
  obtain ⟨a17, p17, rfl, hp17⟩ := exists_cons_of_length_succ hp16
  rw [List.length_eq_zero] at hp17
  subst hp17
  simp only [mkFrame, frameHeader, List.cons_append, List.nil_append]
  unfold decodeE
  norm_num [List.getD_cons_zero, List.getD_cons_succ, List.take_succ_cons,
    List.take_zero, List.length_cons, List.length_nil]
  rw [split_checksum_mod _ (checksum_lt _)]
  simp [reportOf, List.getD_cons_zero, List.getD_cons_succ]

/-- A concrete 18-byte payload exercising both signed and unsigned
fields. -/
def p0 : List Nat :=
  [1, 1, 0, 2, 251, 20, 236, 2, 1, 0, 5, 3, 253, 250, 245, 88, 12, 8]

/-- Witness for C1 at the concrete payload `p0`. -/
theorem decode_roundtrip_witness :
    p0.length = 18 ∧ IsBytes p0 ∧ decodeE (mkFrame p0) = Except.ok (reportOf p0) :=
  ⟨rfl, by decide, decode_roundtrip p0 rfl (by decide)⟩

/-- Claim C3: a successful connect resolving both endpoints leaves the
session connected, sends exactly one Bind frame, and backdates the query
timer by one full interval, so the very next tick (any `t1` within the
same 32-bit millis epoch) issues a Query; moreover on every tick of a
connected session a Query goes out exactly when
`now - lastQueryMillis ≥ 60000`, and `lastQueryMillis` is then set to
`now` (the interval is measured from the last issue time). -/
theorem connect_then_poll_spec (s sp : Session) (t0 t1 now : Nat)
    (ht0 : t0 < U32) (h01 : t0 ≤ t1) (ht1 : t1 < U32)
    (hgap : t1 - t0 < U32 - QUERY_INTERVAL_MS)
    (hc : sp.connected = true) (hw : sp.writeHandle = true)
    (hl : sp.lastQueryMillis ≤ now) (hn : now < U32) :
    (connectToServer true true true true t0 s).1 = true ∧
      (connectToServer true true true true t0 s).2.1.connected = true ∧
      (connectToServer true true true true t0 s).2.2 =
        [[0xFE, 0xFE, 0x03, 0x01, 0x02, 0x00, 0xFF]] ∧
      loopQueryStep t1 (connectToServer true true true true t0 s).2.1 =
        ({ (connectToServer true true true true t0 s).2.1 with
            lastQueryMillis := t1 },
         [[0xFE, 0xFE, 0x03, 0x01, 0x02, 0x00]]) ∧
      (loopQueryStep now sp).2 =
        (if QUERY_INTERVAL_MS ≤ now - sp.lastQueryMillis
         then [[0xFE, 0xFE, 0x03, 0x01, 0x02, 0x00]] else []) ∧
      (loopQueryStep now sp).1 =
        (if QUERY_INTERVAL_MS ≤ now - sp.lastQueryMillis
         then { sp with lastQueryMillis := now } else sp) := by
  have hU : U32 = 4294967296 := rfl
  have hQ : QUERY_INTERVAL_MS = 60000 := rfl
  rw [hU] at ht0 ht1 hn
  rw [hU, hQ] at hgap
  have hnow : now % U32 = now := Nat.mod_eq_of_lt (by rw [hU]; exact hn)
  have ht1m : t1 % U32 = t1 := Nat.mod_eq_of_lt (by rw [hU]; exact ht1)
  have hul : ulSub now sp.lastQueryMillis = now - sp.lastQueryMillis := by
    unfold ulSub
    rw [hU]
    omega
  have harith : QUERY_INTERVAL_MS ≤ ulSub t1 (ulSub t0 QUERY_INTERVAL_MS) := by
    unfold ulSub
    rw [hU, hQ]
    omega
  refine ⟨rfl, rfl, rfl, ?_, ?_, ?_⟩
  · simp only [connectToServer] at harith ⊢
    simp [loopQueryStep, buildQueryCommand, harith, ht1m]
  · by_cases h : QUERY_INTERVAL_MS ≤ now - sp.lastQueryMillis
    · simp [loopQueryStep, buildQueryCommand, hc, hw, hul, hnow, h]
    · simp [loopQueryStep, buildQueryCommand, hc, hw, hul, hnow, h]
  · by_cases h : QUERY_INTERVAL_MS ≤ now - sp.lastQueryMillis
    · simp [loopQueryStep, buildQueryCommand, hc, hw, hul, hnow, h]
    · simp [loopQueryStep, buildQueryCommand, hc, hw, hul, hnow, h]

/-- Witness for C3: a fresh session connecting at `t0 = 5`, the next tick
at `t1 = 10`, and a bound session polled at `now = 60000` with
`lastQueryMillis = 0`. -/
theorem connect_then_poll_spec_witness :
    (connectToServer true true true true 5 ⟨false, false, false, 0⟩).1 = true ∧
      (connectToServer true true true true 5 ⟨false, false, false, 0⟩).2.1.connected = true ∧
      (connectToServer true true true true 5 ⟨false, false, false, 0⟩).2.2 =
        [[0xFE, 0xFE, 0x03, 0x01, 0x02, 0x00, 0xFF]] ∧
      loopQueryStep 10 (connectToServer true true true true 5 ⟨false, false, false, 0⟩).2.1 =
        ({ (connectToServer true true true true 5 ⟨false, false, false, 0⟩).2.1 with
            lastQueryMillis := 10 },
         [[0xFE, 0xFE, 0x03, 0x01, 0x02, 0x00]]) ∧
      (loopQueryStep 60000 (⟨true, true, true, 0⟩ : Session)).2 =
        (if QUERY_INTERVAL_MS ≤ 60000 - (⟨true, true, true, 0⟩ : Session).lastQueryMillis
         then [[0xFE, 0xFE, 0x03, 0x01, 0x02, 0x00]] else []) ∧
      (loopQueryStep 60000 (⟨true, true, true, 0⟩ : Session)).1 =
        (if QUERY_INTERVAL_MS ≤ 60000 - (⟨true, true, true, 0⟩ : Session).lastQueryMillis
         then { (⟨true, true, true, 0⟩ : Session) with lastQueryMillis := 60000 }
         else (⟨true, true, true, 0⟩ : Session)) :=
  connect_then_poll_spec ⟨false, false, false, 0⟩ ⟨true, true, true, 0⟩ 5 10 60000
    (by decide) (by decide) (by decide) (by decide) rfl rfl (by decide) (by decide)

/-! ### Oversized frames: the `uint16_t offsetSum` truncation

`decodeFridgeQuerySingleZone` stores `length - 2` in a `uint16_t`, so for
an input of 65538 bytes the checksum offset wraps to 0: the code sums zero
bytes and compares against the first two sync bytes instead of the
trailing checksum.  The lemmas below compute the relevant facts about a
65538-byte frame `FE FE h2 h3 ++ 65532 zero bytes ++ [c1, c2]`. -/

def bigFrame (h2 h3 c1 c2 : Nat) : List Nat :=
  [0xFE, 0xFE, h2, h3] ++ (List.replicate 65532 0 ++ [c1, c2])

theorem bigFrame_length (h2 h3 c1 c2 : Nat) :
    (bigFrame h2 h3 c1 c2).length = 65538 := by
  unfold bigFrame
  rw [List.length_append, List.length_append, List.length_replicate]
  simp only [List.length_cons, List.length_nil]

theorem bigFrame_getD_low (h2 h3 c1 c2 : Nat) :
    (bigFrame h2 h3 c1 c2).getD 0 0 = 0xFE ∧
      (bigFrame h2 h3 c1 c2).getD 1 0 = 0xFE ∧
      (bigFrame h2 h3 c1 c2).getD 2 0 = h2 ∧
      (bigFrame h2 h3 c1 c2).getD 3 0 = h3 := by
  unfold bigFrame
  refine ⟨?_, ?_, ?_, ?_⟩ <;>
    rw [List.getD_append _ _ _ _ (by simp only [List.length_cons, List.length_nil]; omega)] <;>
    rfl

theorem bigFrame_getD_high (h2 h3 c1 c2 : Nat) :
    (bigFrame h2 h3 c1 c2).getD 65536 0 = c1 ∧
      (bigFrame h2 h3 c1 c2).getD 65537 0 = c2 := by
  unfold bigFrame
  constructor <;>
  · rw [List.getD_append_right _ _ _ _
      (by simp only [List.length_cons, List.length_nil]; omega)]
    rw [show ([0xFE, 0xFE, h2, h3] : List Nat).length = 4 from rfl]
    rw [List.getD_append_right _ _ _ _ (by rw [List.length_replicate] <;> omega)]
    rw [List.length_replicate]
    rfl

theorem bigFrame_take (h2 h3 c1 c2 : Nat) :
    (bigFrame h2 h3 c1 c2).take 65536 =
      [0xFE, 0xFE, h2, h3] ++ List.replicate 65532 0 := by
  unfold bigFrame
  rw [List.take_append_eq_append_take, List.take_append_eq_append_take]
  rw [show ([0xFE, 0xFE, h2, h3] : List Nat).length = 4 from rfl]
  rw [show (65536 - 4 : Nat) = 65532 from rfl]
  rw [List.take_replicate, List.length_replicate, Nat.min_self]
  rw [show (65532 - 65532 : Nat) = 0 from rfl, List.take_zero, List.append_nil]
  rfl

theorem bigFrame_sum_head (h2 h3 : Nat) :
    (([0xFE, 0xFE, h2, h3] : List Nat) ++ List.replicate 65532 0).sum =
      508 + h2 + h3 := by
  rw [List.sum_append, List.sum_replicate, smul_zero]
  simp only [List.sum_cons, List.sum_nil]
  omega

theorem bigFrame_decode (h2 c1 c2 : Nat) :
    decodeE (bigFrame h2 0x01 c1 c2) =
      Except.error DecodeError.ChecksumMismatch := by
  have hlen := bigFrame_length h2 0x01 c1 c2
  obtain ⟨g0, g1, g2, g3⟩ := bigFrame_getD_low h2 0x01 c1 c2
  unfold decodeE
  rw [hlen]
  simp only [g0, g1, g3]
  rw [if_neg (by norm_num)]
  rw [if_neg (by norm_num)]
  rw [if_neg (by norm_num)]
  rw [show ((65538 : Nat) - 2) % 65536 = 0 from rfl]
  simp only [Nat.zero_add, g0, g1, List.take_zero]
  rw [if_pos (by norm_num [calculateChecksum])]

/-- Claim C2 (code bug witness): the 65538-byte input `FE FE 00 01` ++
65532 zero bytes ++ `01 FD` meets every condition the claim requires for
success — length ≥ 24, sync bytes `FE FE`, command `0x01`, and the sum of
the first `length - 2` bytes mod 2^16 equal to the big-endian value of
the trailing two bytes — yet the decoder rejects it with a checksum
mismatch: it truncates the offset `length - 2` to a `uint16_t` (giving 0),
sums zero bytes, and compares against the two sync bytes. -/
theorem decode_truncation_bug :
    (bigFrame 0x00 0x01 0x01 0xFD).length = 65538 ∧
      (bigFrame 0x00 0x01 0x01 0xFD).getD 0 0 = 0xFE ∧
      (bigFrame 0x00 0x01 0x01 0xFD).getD 1 0 = 0xFE ∧
      (bigFrame 0x00 0x01 0x01 0xFD).getD 3 0 = 0x01 ∧
      ((bigFrame 0x00 0x01 0x01 0xFD).take
          ((bigFrame 0x00 0x01 0x01 0xFD).length - 2)).sum % 65536 =
        (bigFrame 0x00 0x01 0x01 0xFD).getD
            ((bigFrame 0x00 0x01 0x01 0xFD).length - 2) 0 * 256 +
          (bigFrame 0x00 0x01 0x01 0xFD).getD
            ((bigFrame 0x00 0x01 0x01 0xFD).length - 1) 0 ∧
      decodeE (bigFrame 0x00 0x01 0x01 0xFD) =
        Except.error DecodeError.ChecksumMismatch := by
  have hlen := bigFrame_length 0x00 0x01 0x01 0xFD
  obtain ⟨g0, g1, g2, g3⟩ := bigFrame_getD_low 0x00 0x01 0x01 0xFD
  obtain ⟨q1, q2⟩ := bigFrame_getD_high 0x00 0x01 0x01 0xFD
  refine ⟨hlen, g0, g1, g3, ?_, bigFrame_decode 0x00 0x01 0xFD⟩
  rw [hlen]
  rw [show (65538 - 2 : Nat) = 65536 from rfl, show (65538 - 1 : Nat) = 65537 from rfl]
  rw [bigFrame_take, q1, q2, bigFrame_sum_head]

/-- Claim C9 (code bug witness): a 65538-byte frame whose declared-length
byte is `0x14` (mismatching the actual length) and whose checksum is
correct over its actual length — sync and command bytes in place — does
not decode successfully as the claim asserts: the `uint16_t` truncation of
the checksum offset makes the decoder reject it with a checksum
mismatch. -/
theorem declared_length_mismatch_bug :
    (bigFrame 0x14 0x01 0x02 0x11).length = 65538 ∧
      (bigFrame 0x14 0x01 0x02 0x11).getD 2 0 = 0x14 ∧
      (bigFrame 0x14 0x01 0x02 0x11).getD 0 0 = 0xFE ∧
      (bigFrame 0x14 0x01 0x02 0x11).getD 1 0 = 0xFE ∧
      (bigFrame 0x14 0x01 0x02 0x11).getD 3 0 = 0x01 ∧
      ((bigFrame 0x14 0x01 0x02 0x11).take
          ((bigFrame 0x14 0x01 0x02 0x11).length - 2)).sum % 65536 =
        (bigFrame 0x14 0x01 0x02 0x11).getD
            ((bigFrame 0x14 0x01 0x02 0x11).length - 2) 0 * 256 +
          (bigFrame 0x14 0x01 0x02 0x11).getD
            ((bigFrame 0x14 0x01 0x02 0x11).length - 1) 0 ∧
      decodeE (bigFrame 0x14 0x01 0x02 0x11) =
        Except.error DecodeError.ChecksumMismatch := by
  have hlen := bigFrame_length 0x14 0x01 0x02 0x11
  obtain ⟨g0, g1, g2, g3⟩ := bigFrame_getD_low 0x14 0x01 0x02 0x11
  obtain ⟨q1, q2⟩ := bigFrame_getD_high 0x14 0x01 0x02 0x11
  refine ⟨hlen, g2, g0, g1, g3, ?_, bigFrame_decode 0x14 0x02 0x11⟩
  rw [hlen]
  rw [show (65538 - 2 : Nat) = 65536 from rfl, show (65538 - 1 : Nat) = 65537 from rfl]
  rw [bigFrame_take, q1, q2, bigFrame_sum_head]

end VevorFridge
